import Mathlib

/-!
Shallow embedding of the presentation-generation system
(app.py, generate_ppt.py, design_extractor.py, ingestion_chroma.py,
azure_blob_utils.py) and proofs about the spec claims.

Python strings are modelled as `List Char`; external network calls
(chat model, image model, embedding service, blob storage) are modelled
by passing their outcome in as an explicit parameter.
-/

/-- `Str` models a Python `str` as a list of characters. -/
abbrev Str := List Char

/-- Coerce a Lean string literal to the `Str` model. -/
def str (s : String) : Str := s.toList

/-- Models Python `str.lower()` (ASCII case folding, as used by the prompts here). -/
def lowerStr (s : Str) : Str := s.map Char.toLower

/-- Models Python `str.capitalize()`: first character upper-cased, rest lower-cased. -/
def capitalizeStr : Str → Str
  | [] => []
  | c :: cs => c.toUpper :: cs.map Char.toLower

/-- Models the Python substring test `needle in haystack`. -/
def isSubstr (needle : Str) : Str → Bool
  | [] => needle.isEmpty
  | c :: t => needle.isPrefixOf (c :: t) || isSubstr needle t

/-- Models `os.path.basename`: everything after the last path separator. -/
def pyBasename (p : Str) : Str := ((p.reverse.takeWhile (fun c => c ≠ '/')).reverse)

/-- Models the stem part of `os.path.splitext` applied to a basename:
split at the last dot, except that a name whose part before the last dot
is empty or all dots (for example a leading-dot filename) has no extension. -/
def splitextStem (b : Str) : Str :=
  let r := b.reverse
  let afterDot := r.takeWhile (fun c => c ≠ '.')
  if afterDot.length = r.length then b
  else
    let stem := (r.drop (afterDot.length + 1)).reverse
    if stem.all (fun c => c = '.') then b else stem

/-- Models Python whitespace (the `\s` class, ASCII part). -/
def pyWhite (c : Char) : Bool :=
  c = ' ' || c = '\t' || c = '\n' || c = '\r' || c = '\x0b' || c = '\x0c'

/-- Numeric value of a digit run, as `int(...)` would read it. -/
def digitsToNat (ds : Str) : Nat :=
  ds.foldl (fun a c => a * 10 + (c.toNat - 48)) 0

namespace GeneratePpt

/-- One attempt of the regex `(\d+)\s+slides?` anchored at the head of `l`:
a maximal nonempty digit run, then a nonempty whitespace run, then the
literal `slide` (the optional final `s` does not affect group 1).
The digit and whitespace classes are disjoint from each other and from
`s`, so the greedy match never backtracks and this is exact. -/
def matchNumAt (l : Str) : Option Nat :=
  let ds := l.takeWhile Char.isDigit
  if ds.isEmpty then none
  else
    let r1 := l.dropWhile Char.isDigit
    let ws := r1.takeWhile pyWhite
    if ws.isEmpty then none
    else if (str "slide").isPrefixOf (r1.dropWhile pyWhite) then some (digitsToNat ds)
    else none

/-- Leftmost search of `re.search(r"(\d+)\s+slides?", ...)`: try each start
position left to right. -/
def scanNumSlides : Str → Option Nat
  | [] => none
  | c :: t =>
    match matchNumAt (c :: t) with
    | some n => some n
    | none => scanNumSlides t

/-- The theme vocabulary of `parse_user_intent`, in source order. -/
def theme_words : List Str :=
  [str "corporate", str "modern", str "minimal", str "professional",
   str "dark", str "light", str "colorful", str "gradient", str "flat"]

/-- The theme-detection loop of `parse_user_intent`: first vocabulary word
(in vocabulary order) contained in the lower-cased prompt, capitalized. -/
def detectThemeLoop (p : Str) : List Str → Option Str
  | [] => none
  | t :: ts => if isSubstr t (lowerStr p) then some (capitalizeStr t) else detectThemeLoop p ts

/-- `parse_user_intent` from generate_ppt.py: detected slide count from
`re.search(r"(\d+)\s+slides?", prompt.lower())` and detected theme from
the vocabulary loop. -/
def parse_user_intent (prompt : Str) : Option Nat × Option Str :=
  (scanNumSlides (lowerStr prompt), detectThemeLoop prompt theme_words)

end GeneratePpt

namespace DesignExtractor

/-- The shape-type discrimination relevant to `extract_slide_elements`
(MSO_SHAPE_TYPE values PICTURE, TABLE, CHART, AUTO_SHAPE, or anything else). -/
inductive ShapeKind where
  | picture
  | table
  | chart
  | autoShape
  | other
deriving DecidableEq, Repr

/-- A slide shape as seen by `extract_slide_elements`:  its name, its
shape-type, the readable chart-type text (`none` models `shape.chart.chart_type`
raising, in which case the literal `Chart` is recorded), the auto-shape-type
text, the fill and line colors when readable (`none` models a missing or
unreadable color attribute), and the font names of its text runs. -/
structure Shape where
  name : Str
  kind : ShapeKind
  chartType : Option Str
  autoLabel : Str
  fillColor : Option Str
  lineColor : Option Str
  fonts : List Str
deriving DecidableEq, Repr

/-- A slide as consumed by `extract_slide_elements`: layout name,
background color when readable, and its shapes in order. -/
structure Slide where
  layout : Option Str
  backgroundColor : Option Str
  shapes : List Shape
deriving DecidableEq, Repr

/-- The per-slide record built by `extract_slide_elements`. -/
structure SlideData where
  layout : Option Str
  background_color : Option Str
  images : List Str
  shapes : List Str
  charts : List Str
  tables : List Str
  icons : List Str
  text_fonts : List Str
  accent_colors : List Str
deriving DecidableEq, Repr

/-- One iteration of the shape loop of `extract_slide_elements`: the
`if`/`elif` classification chain (the icon test is the FINAL `elif`, so it
runs only when the shape-type matched none of the four typed branches),
followed by the accent-color and text-font accumulation. -/
def addShape (sd : SlideData) (sh : Shape) : SlideData :=
  let sd :=
    match sh.kind with
    | .picture => { sd with images := sd.images ++ [sh.name] }
    | .table => { sd with tables := sd.tables ++ [sh.name] }
    | .chart =>
        { sd with charts := sd.charts ++ [match sh.chartType with
            | some c => c
            | none => str "Chart"] }
    | .autoShape => { sd with shapes := sd.shapes ++ [sh.autoLabel] }
    | .other =>
        if isSubstr (str "icon") (lowerStr sh.name) then
          { sd with icons := sd.icons ++ [sh.name] }
        else sd
  let sd :=
    match sh.fillColor with
    | some c => { sd with accent_colors := sd.accent_colors ++ [c] }
    | none => sd
  let sd :=
    match sh.lineColor with
    | some c => { sd with accent_colors := sd.accent_colors ++ [c] }
    | none => sd
  { sd with text_fonts := sd.text_fonts ++ sh.fonts }

/-- `extract_slide_elements` from design_extractor.py: fold the shape loop
over the slide shapes, then deduplicate `accent_colors` and `text_fonts`
(the Python `list(set(...))` step, modelled with first-occurrence order). -/
def extract_slide_elements (slide : Slide) : SlideData :=
  let init : SlideData :=
    { layout := slide.layout
      background_color := slide.backgroundColor
      images := [], shapes := [], charts := [], tables := [], icons := []
      text_fonts := [], accent_colors := [] }
  let sd := slide.shapes.foldl addShape init
  { sd with
    accent_colors := sd.accent_colors.eraseDups
    text_fonts := sd.text_fonts.eraseDups }

/-- The local design-JSON cache directory as a map from file name to file
content (design_jsons/<name> holding <content>). -/
structure CacheFS where
  cache : List (Str × Str)
deriving DecidableEq, Repr

/-- `ppt_already_processed` from design_extractor.py: the cache holds a file
named `<basename of the deck>.json`. -/
def ppt_already_processed (fs : CacheFS) (ppt_name : Str) : Bool :=
  (fs.cache.lookup (pyBasename ppt_name ++ str ".json")).isSome

/-- `process_blob` from design_extractor.py, at deck granularity.  External
effects are explicit: `downloadOutcome` is the blob download (error models
the download raising; a failed download is logged and the deck abandoned),
and `extractOutcome` is the parse-extract-serialize step over the downloaded
bytes (error models any exception there; the deck is then skipped with no
file written).  Returns the new cache state and the number of downloads
performed. -/
def process_blob (blob_name : Str) (fs : CacheFS)
    (downloadOutcome : Except Str Unit) (extractOutcome : Except Str Str) :
    CacheFS × Nat :=
  if ppt_already_processed fs blob_name then (fs, 0)
  else
    match downloadOutcome with
    | .error _ => (fs, 1)
    | .ok _ =>
      match extractOutcome with
      | .error _ => (fs, 1)
      | .ok designJson =>
        (⟨fs.cache ++ [(pyBasename blob_name ++ str ".json", designJson)]⟩, 1)

/-- The names bound at module level in design_extractor.py (imports,
configuration constants, clients, and function definitions) — the namespace
a `from design_extractor import ...` statement resolves against. -/
def design_extractor_defs : List Str :=
  [str "os", str "json", str "tempfile", str "Presentation",
   str "MSO_SHAPE_TYPE", str "BlobServiceClient",
   str "get_env", str "logger", str "now_ts",
   str "BLOB_CONN", str "BLOB_CONTAINER",
   str "blob_service", str "container_client", str "OUTPUT_DIR",
   str "ppt_already_processed", str "extract_theme_colors",
   str "extract_fonts_and_layouts", str "extract_slide_elements",
   str "extract_design_elements", str "process_blob", str "main"]

end DesignExtractor

namespace IngestionChroma

/-- Resolution of a Python `from <module> import <name>` statement once the
module body has executed: the name must be bound in the module namespace,
otherwise an ImportError is raised. -/
def pyFromImport (moduleDefs : List Str) (name : Str) : Except Str Unit :=
  if name ∈ moduleDefs then .ok ()
  else .error (str "ImportError: cannot import name " ++ name)

/-- Loading ingestion_chroma.py executes its line 9,
`from design_extractor import extract_design_json`, against the names
design_extractor.py defines. -/
def load_module : Except Str Unit :=
  pyFromImport DesignExtractor.design_extractor_defs (str "extract_design_json")

end IngestionChroma

/-- Strip leading and trailing whitespace, as Python `str.strip()`. -/
def pyStrip (s : Str) : Str :=
  ((s.dropWhile pyWhite).reverse.dropWhile pyWhite).reverse

/-- `os.path.join(a, b)` for the flat names used here. -/
def pyPathJoin (a b : Str) : Str :=
  if a.isEmpty then b
  else if a.getLast? = some '/' then a ++ b
  else a ++ [ '/' ] ++ b

/-- Decimal rendering of a natural number, as Python `str(n)`. -/
def natToStr (n : Nat) : Str := (toString n).toList

namespace IngestionChroma

/-- An embedding vector.  The numeric contents never matter to the claims,
only whether the embedding call produced vectors, so components are
modelled as integers. -/
abbrev Emb := List Int

/-- `azure_embed_func` from ingestion_chroma.py: the embedding-service call
is external, so its outcome is the argument; an exception is caught, logged
and turned into the empty list. -/
def azure_embed_func (outcome : Except Str (List Emb)) : List Emb :=
  match outcome with
  | .ok vs => vs
  | .error _ => []

/-- One entry of the `extract_slides` result: zero-based index and the
newline-joined slide text. -/
structure IngSlide where
  index : Nat
  text : Str
deriving DecidableEq, Repr

/-- `extract_slides` from ingestion_chroma.py.  A deck is modelled as the
list of its slides, each slide as the list of the `.text` values of its
shapes that expose text: per slide, keep each shape text stripped and
non-empty, joined by newlines, in shape order. -/
def extract_slides (deck : List (List Str)) : List IngSlide :=
  deck.enum.map (fun p =>
    { index := p.1
      text := List.intercalate [ '\n' ]
        (((p.2.map pyStrip).filter (fun t => ¬ t.isEmpty))) })

/-- The vector-store metadata record built per slide by `process_blob`. -/
structure Meta where
  ppt_name : Str
  slide_id : Str
  slide_index : Nat
  title : Str
deriving DecidableEq, Repr

/-- The metadata dict built for one slide inside the `process_blob` loop. -/
def slideMeta (blob_name ppt_base : Str) (s : IngSlide) : Meta :=
  { ppt_name := blob_name
    slide_id := ppt_base ++ str "_Slide_" ++ natToStr s.index
    slide_index := s.index
    title := if s.text.isEmpty then [] else s.text.takeWhile (fun c => c ≠ '\n') }

/-- One iteration of the `for s in slides` loop of `process_blob`: append to
`docs`, `metas`, `ids` (a fresh identifier from the uuid stream) and
`alltexts`; the last component counts loop iterations to index the uuid
stream. -/
def batchStep (blob_name ppt_base : Str) (idGen : Nat → Str)
    (acc : List Str × List Meta × List Str × List Str × Nat) (s : IngSlide) :
    List Str × List Meta × List Str × List Str × Nat :=
  let (docs, metas, ids, alltexts, k) := acc
  (docs ++ [s.text],
   metas ++ [slideMeta blob_name ppt_base s],
   ids ++ [idGen k],
   alltexts ++ [s.text],
   k + 1)

/-- One `collection.add(documents=…, embeddings=…, metadatas=…, ids=…)` call. -/
structure AddCall where
  documents : List Str
  embeddings : List Emb
  metadatas : List Meta
  ids : List Str
deriving DecidableEq, Repr

/-- `process_blob` from ingestion_chroma.py.  External effects are explicit:
`downloadOutcome` is the blob download (an error propagates, since this
function has no guard around it), `embedOutcome` is the batch embedding
call consumed by `azure_embed_func`, and `idGen` is the stream of
`uuid.uuid4()` results.  The returned value is the list of `collection.add`
calls performed. -/
def process_blob (blob_name : Str) (deck : List (List Str))
    (downloadOutcome : Except Str Unit)
    (embedOutcome : Except Str (List Emb)) (idGen : Nat → Str) :
    Except Str (List AddCall) :=
  match downloadOutcome with
  | .error e => .error e
  | .ok _ =>
    let slides := extract_slides deck
    if slides.isEmpty then .ok []
    else
      let ppt_base := splitextStem (pyBasename blob_name)
      let batch := slides.foldl (batchStep blob_name ppt_base idGen) ([], [], [], [], 0)
      let embeddings := azure_embed_func embedOutcome
      if embeddings.isEmpty then .ok []
      else .ok [{ documents := batch.1, embeddings := embeddings,
                  metadatas := batch.2.1, ids := batch.2.2.1 }]

end IngestionChroma

namespace GeneratePpt

/-- A slide-plan entry as read out of the parsed model output with `.get`:
every field may be absent. -/
structure PlanEntry where
  title : Option Str
  bullets : Option (List Str)
  visual_required : Bool
  visual_prompt : Option Str
deriving DecidableEq, Repr

/-- The fixed fallback plan of `call_llm_plan`:
`[{"title": "Intro", "bullets": ["Overview"], "visual_required": False}]`. -/
def fallback_plan : List PlanEntry :=
  [{ title := some (str "Intro"), bullets := some [str "Overview"],
     visual_required := false, visual_prompt := none }]

/-- `call_llm_plan` from generate_ppt.py, result handling.  The prompt,
style, context and slide-count arguments of the source only build the chat
messages, which feed the external chat call; that call's outcome is
`chatOutcome` (`error` models the call raising, caught by the `except`
branch).  Modelled from the spec: `safe_json_load` lives in utils.py, which
is not among the sources; per the spec it is a tolerant parser that returns
the parsed slide-plan list or a falsy failure sentinel and never raises, so
it is taken as an arbitrary function into `Option`, with `none` the failure
sentinel and `some []` the empty (falsy) parse. -/
def call_llm_plan (chatOutcome : Except Str Str)
    (safe_json_load : Str → Option (List PlanEntry)) : List PlanEntry :=
  match chatOutcome with
  | .error _ => fallback_plan
  | .ok raw =>
    match safe_json_load raw with
    | none => fallback_plan
    | some [] => fallback_plan
    | some plan => plan

/-- Python `a or b` on an optional integer: `None` and `0` are falsy. -/
def pyOrNat (a b : Option Nat) : Option Nat :=
  match a with
  | some n => if n = 0 then b else some n
  | none => b

/-- Python `a or b` on an optional string: `None` and `""` are falsy. -/
def pyOrStr (a b : Option Str) : Option Str :=
  match a with
  | some s => if s.isEmpty then b else some s
  | none => b

/-- Lines 181–183 of generate_ppt.py:
`requested_num_slides = requested_num_slides or detected_slides` and
`theme = theme or detected_theme`. -/
def resolveIntent (prompt : Str) (requested_num_slides : Option Nat)
    (theme : Option Str) : Option Nat × Option Str :=
  let d := parse_user_intent prompt
  (pyOrNat requested_num_slides d.1, pyOrStr theme d.2)

/-- One semantic-search hit: `ppt_name` and an optional `text`. -/
structure RefHit where
  ppt_name : Str
  text : Option Str
deriving DecidableEq, Repr

/-- `(r.get("text") or "")[:500]` for one hit. -/
def refSnippet (r : RefHit) : Str :=
  (match r.text with
   | some t => t
   | none => []).take 500

/-- A slide of the generated document. -/
structure GenSlide where
  title : Str
  bullets : List Str
  image_path : Option Str
deriving DecidableEq, Repr

/-- The per-plan-entry slide assembly of `generate_presentation` including
the `visual_required` branch; `imgGen` is `generate_visual_image`, which
returns the local image path or `None` on any failure and never raises. -/
def buildSlide (imgGen : Str → Option Str) (sp : PlanEntry) : GenSlide :=
  let title := sp.title.getD (str "Untitled")
  { title := title
    bullets := sp.bullets.getD []
    image_path :=
      if sp.visual_required then
        imgGen (sp.visual_prompt.getD (str "Professional visual for " ++ title))
      else none }

/-- The Generation Log record assembled by `generate_presentation`. -/
structure GenLog where
  timestamp : Str
  prompt : Str
  style : Str
  theme : Option Str
  requested_num_slides : Option Nat
  references_used : Nat
  design_jsons_used : Nat
  slides_generated : Nat
  ppt_file : Str
deriving DecidableEq, Repr

/-- One upload performed against the generated-output container. -/
inductive Upload where
  | ppt (localPath blobName : Str)
  | json (log : GenLog) (blobName : Str)
deriving DecidableEq, Repr

/-- What a run of `generate_presentation` produces: the returned local
path, the returned log, the uploads performed, and the content of the
saved document (its slides). -/
structure GenResult where
  out_path : Str
  log : GenLog
  uploads : List Upload
  doc : List GenSlide
deriving DecidableEq, Repr

/-- `generate_presentation` from generate_ppt.py, on a run where nothing
escapes the pipeline.  External effects are explicit parameters:
`searchOutcome` for `semantic_search` (search_utils.py is not among the
sources; per the spec it returns a list of hits, possibly empty or absent,
and `refs = … or []` makes that the empty list), `designCache` for the
local design_jsons directory (a lookup returning the loaded JSON or `none`
on a missing or unreadable file), `chatOutcome` and `safe_json_load` as in
`call_llm_plan`, `imgGen` for `generate_visual_image`, `now` for `now_ts`,
`tmpdir` for `tempfile.gettempdir()`, and `h1`, `h2` for the two
independent `uuid.uuid4().hex[:8]` draws (local file then upload name). -/
def generate_presentation (prompt style : Str)
    (requested_num_slides : Option Nat) (theme : Option Str)
    (tag_filters : List Str)
    (searchOutcome : Option (List RefHit))
    (designCache : Str → Option Str)
    (chatOutcome : Except Str Str)
    (safe_json_load : Str → Option (List PlanEntry))
    (imgGen : Str → Option Str)
    (now tmpdir h1 h2 : Str) : GenResult :=
  let resolved := resolveIntent prompt requested_num_slides theme
  let refs := searchOutcome.getD []
  let reference_text := (refs.map refSnippet).filter (fun t => ¬ t.isEmpty)
  let design_context :=
    refs.filterMap (fun r => designCache (pyBasename r.ppt_name ++ str ".json"))
  let plan := call_llm_plan chatOutcome safe_json_load
  let slides := plan.map (buildSlide imgGen)
  let out_path := pyPathJoin tmpdir (str "generated_presentation_" ++ h1 ++ str ".pptx")
  let fname := str "generated_" ++ h2 ++ str ".pptx"
  let log : GenLog :=
    { timestamp := now
      prompt := prompt
      style := style
      theme := resolved.2
      requested_num_slides := resolved.1
      references_used := reference_text.length
      design_jsons_used := design_context.length
      slides_generated := slides.length
      ppt_file := fname }
  { out_path := out_path
    log := log
    uploads := [Upload.ppt out_path fname,
                Upload.json log (str "logs/" ++ fname ++ str ".json")]
    doc := slides }

end GeneratePpt

namespace App

/-- The phase selector options of app.py. -/
def phase_options : List Str :=
  [str "Any", str "Plan", str "Design", str "Build", str "Test", str "Support"]

/-- The tag derivation of the submit handler:
`if phase and phase != "Any": tags.append(phase)`. -/
def submit_tags (phase : Str) : List Str :=
  if ¬ phase.isEmpty ∧ phase ≠ str "Any" then [phase] else []

/-- The submit handler of app.py: it invokes
`generate_presentation(prompt=prompt, style=phase, tag_filters=tags)`,
leaving `requested_num_slides` and `theme` at their absent defaults. -/
def submit (phase prompt : Str)
    (searchOutcome : Option (List GeneratePpt.RefHit))
    (designCache : Str → Option Str)
    (chatOutcome : Except Str Str)
    (safe_json_load : Str → Option (List GeneratePpt.PlanEntry))
    (imgGen : Str → Option Str)
    (now tmpdir h1 h2 : Str) : GeneratePpt.GenResult :=
  GeneratePpt.generate_presentation prompt phase none none (submit_tags phase)
    searchOutcome designCache chatOutcome safe_json_load imgGen now tmpdir h1 h2

end App

namespace GeneratePpt

/-- The slide-count rule phrased as in the spec, first-occurrence style:
the first position of the lower-cased prompt at which a number, one or more
whitespace characters, and then `slide` match, and the number found there. -/
def numSlidesFirstOccurrence (prompt : Str) : Option Nat :=
  let cs := lowerStr prompt
  ((List.range cs.length).find? (fun i => (matchNumAt (cs.drop i)).isSome)).bind
    (fun i => matchNumAt (cs.drop i))

end GeneratePpt

/-- An 8-character lowercase hex string, the shape of `uuid.uuid4().hex[:8]`. -/
def isHex8 (s : Str) : Bool :=
  s.length = 8 && s.all (fun c => c.isDigit || ('a' ≤ c && c ≤ 'f'))

/-!  ## Theorems  -/

/-- The leftmost-search regex scan equals its first-occurrence
characterization over start positions. -/
theorem scanNumSlides_eq_find (l : Str) :
    GeneratePpt.scanNumSlides l =
    ((List.range l.length).find? (fun i => (GeneratePpt.matchNumAt (l.drop i)).isSome)).bind
      (fun i => GeneratePpt.matchNumAt (l.drop i)) := by
  induction l with
  | nil => rfl
  | cons c t ih =>
    rw [GeneratePpt.scanNumSlides]
    cases h : GeneratePpt.matchNumAt (c :: t) with
    | some n =>
      simp [List.range_succ_eq_map, List.find?_cons, h]
    | none =>
      simp [List.range_succ_eq_map, List.find?_cons, h, List.find?_map, Function.comp_def,
        List.drop_succ_cons, ih, Option.bind_map]

/-- The theme-detection loop equals `find?` over the vocabulary, mapped
through capitalization. -/
theorem detectThemeLoop_eq_find (p : Str) (l : List Str) :
    GeneratePpt.detectThemeLoop p l =
    (l.find? (fun t => isSubstr t (lowerStr p))).map capitalizeStr := by
  induction l with
  | nil => rfl
  | cons t ts ih =>
    rw [GeneratePpt.detectThemeLoop]
    cases h : isSubstr t (lowerStr p) <;> simp [List.find?_cons, h, ih]

/-- C1: false as stated.  For the prompt
`Create a 5-slide modern presentation about healthcare design.` the
detected slide count is NOT 5 (it is absent: the regex
`(\d+)\s+slides?` requires whitespace between the number and `slide`,
and `5-slide` has a hyphen there), while the detected theme is indeed
`Modern`. -/
theorem parse_user_intent_hyphen_counterexample :
    ¬ (GeneratePpt.parse_user_intent
        (str "Create a 5-slide modern presentation about healthcare design.")).1 = some 5 ∧
    (GeneratePpt.parse_user_intent
        (str "Create a 5-slide modern presentation about healthcare design.")).2 =
      some (str "Modern") := by
  decide

/-- C1 (amended): the detected slide count is the number in the first
occurrence, anywhere in the lower-cased prompt, of a number followed by one
or more whitespace characters and then `slide` or `slides`; in particular,
for the prompt `Create a 5-slide modern presentation about healthcare design.`
the detected slide count is absent (no whitespace between `5` and `slide`)
and the detected theme is `Modern`. -/
theorem parse_user_intent_slide_count_rule :
    (∀ p : Str, (GeneratePpt.parse_user_intent p).1 = GeneratePpt.numSlidesFirstOccurrence p) ∧
    GeneratePpt.parse_user_intent
        (str "Create a 5-slide modern presentation about healthcare design.") =
      (none, some (str "Modern")) := by
  constructor
  · intro p
    exact scanNumSlides_eq_find (lowerStr p)
  · decide

/-- C6: for every prompt whose lower-cased text contains at least two of the
theme vocabulary words, the detected theme is the capitalization of the
first vocabulary entry in vocabulary order — not text order — that occurs
as a substring of the lower-cased prompt; in particular a prompt containing
both `dark` and `corporate` yields theme `Corporate`. -/
theorem detected_theme_vocabulary_order (p : Str)
    (h2 : 2 ≤ (GeneratePpt.theme_words.filter (fun t => isSubstr t (lowerStr p))).length) :
    (GeneratePpt.parse_user_intent p).2 =
      (GeneratePpt.theme_words.find? (fun t => isSubstr t (lowerStr p))).map capitalizeStr ∧
    (isSubstr (str "dark") (lowerStr p) = true → isSubstr (str "corporate") (lowerStr p) = true →
      (GeneratePpt.parse_user_intent p).2 = some (str "Corporate")) := by
  constructor
  · exact detectThemeLoop_eq_find p GeneratePpt.theme_words
  · intro _ hc
    have h := detectThemeLoop_eq_find p GeneratePpt.theme_words
    simp only [GeneratePpt.parse_user_intent]
    rw [h]
    simp [GeneratePpt.theme_words, List.find?_cons, hc]
    rfl

/-- Witness for C6 at the concrete prompt `a dark corporate deck`. -/
theorem detected_theme_vocabulary_order_witness :
    (GeneratePpt.parse_user_intent (str "a dark corporate deck")).2 = some (str "Corporate") :=
  (detected_theme_vocabulary_order (str "a dark corporate deck") (by decide)).2
    (by decide) (by decide)

/-- The icons bucket accumulated by the shape loop: exactly the names of
shapes whose shape-type matched none of the four typed branches and whose
name contains `icon` case-insensitively. -/
theorem foldl_addShape_icons (l : List DesignExtractor.Shape) (init : DesignExtractor.SlideData) :
    (l.foldl DesignExtractor.addShape init).icons =
      init.icons ++ (l.filter (fun sh =>
        decide (sh.kind = DesignExtractor.ShapeKind.other) &&
          isSubstr (str "icon") (lowerStr sh.name))).map DesignExtractor.Shape.name := by
  induction l generalizing init with
  | nil => simp
  | cons sh l ih =>
    rw [List.foldl_cons, List.filter_cons, ih]
    rcases sh with ⟨name, kind, ct, al, fc, lc, fonts⟩
    cases kind <;>
      cases fc <;> cases lc <;>
        simp [DesignExtractor.addShape] <;>
          cases h : isSubstr (str "icon") (lowerStr name) <;> simp [h]

/-- The images bucket accumulated by the shape loop: exactly the names of
picture shapes. -/
theorem foldl_addShape_images (l : List DesignExtractor.Shape) (init : DesignExtractor.SlideData) :
    (l.foldl DesignExtractor.addShape init).images =
      init.images ++ (l.filter (fun sh =>
        decide (sh.kind = DesignExtractor.ShapeKind.picture))).map DesignExtractor.Shape.name := by
  induction l generalizing init with
  | nil => simp
  | cons sh l ih =>
    rw [List.foldl_cons, List.filter_cons, ih]
    rcases sh with ⟨name, kind, ct, al, fc, lc, fonts⟩
    cases kind <;>
      cases fc <;> cases lc <;>
        simp [DesignExtractor.addShape] <;>
          cases h : isSubstr (str "icon") (lowerStr name) <;> simp [h]

/-- C2: false as stated.  A picture shape named `Icon1` lands in the images
bucket but NOT in the icons bucket: the icon test is the final `elif` of the
classification chain, so it never runs for a shape already classified by
shape-type. -/
theorem icon_named_picture_counterexample :
    (DesignExtractor.extract_slide_elements
      { layout := none, backgroundColor := none,
        shapes := [{ name := str "Icon1", kind := DesignExtractor.ShapeKind.picture,
                     chartType := none, autoLabel := [], fillColor := none,
                     lineColor := none, fonts := [] }] }).images = [str "Icon1"] ∧
    (DesignExtractor.extract_slide_elements
      { layout := none, backgroundColor := none,
        shapes := [{ name := str "Icon1", kind := DesignExtractor.ShapeKind.picture,
                     chartType := none, autoLabel := [], fillColor := none,
                     lineColor := none, fonts := [] }] }).icons = [] := by
  decide

/-- C2 (amended): in `extract_slide_elements`, a shape whose name contains
the case-insensitive substring `icon` is added to the icons bucket only
when its shape-type matched none of picture/table/chart/auto-shape: the
icons bucket is exactly the names of such otherwise-unclassified shapes,
and a picture named with `icon` appears only in the images bucket
(exactly the picture shapes), never in the icons bucket. -/
theorem icons_bucket_is_exclusive (slide : DesignExtractor.Slide) :
    (DesignExtractor.extract_slide_elements slide).icons =
      (slide.shapes.filter (fun sh =>
        decide (sh.kind = DesignExtractor.ShapeKind.other) &&
          isSubstr (str "icon") (lowerStr sh.name))).map DesignExtractor.Shape.name ∧
    (DesignExtractor.extract_slide_elements slide).images =
      (slide.shapes.filter (fun sh =>
        decide (sh.kind = DesignExtractor.ShapeKind.picture))).map DesignExtractor.Shape.name := by
  constructor
  · rw [DesignExtractor.extract_slide_elements]
    simp [foldl_addShape_icons]
  · rw [DesignExtractor.extract_slide_elements]
    simp [foldl_addShape_images]

/-- C3: false as stated.  A caller-supplied slide count of 0 is falsy in
`requested_num_slides or detected_slides`, so it does NOT take precedence:
with prompt `make 7 slides about x` and caller value 0 the resolved count
is the detected 7, not the caller value 0. -/
theorem caller_zero_overridden_counterexample :
    ¬ (GeneratePpt.resolveIntent (str "make 7 slides about x") (some 0) none).1 = some 0 ∧
    (GeneratePpt.resolveIntent (str "make 7 slides about x") (some 0) none).1 = some 7 := by
  decide

/-- C3 (amended): caller-supplied values take precedence over detected ones
exactly when they are truthy: a nonzero caller slide count and a nonempty
caller theme win, while an absent caller value — and likewise a supplied 0
or empty theme, both falsy under Python `or` — yields the detected value. -/
theorem caller_precedence_when_truthy (prompt : Str) (req : Option Nat) (theme : Option Str) :
    (∀ n : Nat, req = some n → n ≠ 0 →
      (GeneratePpt.resolveIntent prompt req theme).1 = some n) ∧
    (req = none ∨ req = some 0 →
      (GeneratePpt.resolveIntent prompt req theme).1 = (GeneratePpt.parse_user_intent prompt).1) ∧
    (∀ s : Str, theme = some s → s ≠ [] →
      (GeneratePpt.resolveIntent prompt req theme).2 = some s) ∧
    (theme = none ∨ theme = some [] →
      (GeneratePpt.resolveIntent prompt req theme).2 = (GeneratePpt.parse_user_intent prompt).2) := by
  refine ⟨?_, ?_, ?_, ?_⟩
  · intro n hn h0
    subst hn
    simp [GeneratePpt.resolveIntent, GeneratePpt.pyOrNat, h0]
  · rintro (h | h) <;> subst h <;>
      simp [GeneratePpt.resolveIntent, GeneratePpt.pyOrNat]
  · intro s hs hne
    subst hs
    simp [GeneratePpt.resolveIntent, GeneratePpt.pyOrStr, hne]
  · rintro (h | h) <;> subst h <;>
      simp [GeneratePpt.resolveIntent, GeneratePpt.pyOrStr]

/-- Witness for C3 (amended): a truthy caller count 3 wins over the
detected 7; a caller count 0 falls back to the detected 7. -/
theorem caller_precedence_when_truthy_witness :
    (GeneratePpt.resolveIntent (str "make 7 slides about x") (some 3) none).1 = some 3 ∧
    (GeneratePpt.resolveIntent (str "make 7 slides about x") (some 0) none).1 =
      (GeneratePpt.parse_user_intent (str "make 7 slides about x")).1 :=
  ⟨(caller_precedence_when_truthy (str "make 7 slides about x") (some 3) none).1 3 rfl
      (by decide),
   (caller_precedence_when_truthy (str "make 7 slides about x") (some 0) none).2.1
      (Or.inr rfl)⟩

/-- C4: whenever the chat call raises or the tolerant parse of the raw
response fails or yields an empty result, `call_llm_plan` returns exactly
the single-entry fallback plan (it never raises: it is a total function of
the call outcome), and `generate_presentation` consequently produces a
one-slide document titled `Intro` with bullet `Overview` and a log with
`slides_generated = 1`. -/
theorem call_llm_plan_fallback (prompt style : Str)
    (req : Option Nat) (theme : Option Str) (tags : List Str)
    (searchOutcome : Option (List GeneratePpt.RefHit))
    (designCache : Str → Option Str)
    (chatOutcome : Except Str Str)
    (sjl : Str → Option (List GeneratePpt.PlanEntry))
    (imgGen : Str → Option Str) (now tmpdir h1 h2 : Str)
    (hfail : ∀ raw, chatOutcome = .ok raw → sjl raw = none ∨ sjl raw = some []) :
    GeneratePpt.call_llm_plan chatOutcome sjl = GeneratePpt.fallback_plan ∧
    (GeneratePpt.generate_presentation prompt style req theme tags searchOutcome
        designCache chatOutcome sjl imgGen now tmpdir h1 h2).doc =
      [{ title := str "Intro", bullets := [str "Overview"], image_path := none }] ∧
    (GeneratePpt.generate_presentation prompt style req theme tags searchOutcome
        designCache chatOutcome sjl imgGen now tmpdir h1 h2).log.slides_generated = 1 := by
  have hplan : GeneratePpt.call_llm_plan chatOutcome sjl = GeneratePpt.fallback_plan := by
    cases chatOutcome with
    | error e => rfl
    | ok raw =>
      rcases hfail raw rfl with h | h <;> simp [GeneratePpt.call_llm_plan, h]
  refine ⟨hplan, ?_, ?_⟩ <;>
    simp [GeneratePpt.generate_presentation, hplan, GeneratePpt.fallback_plan,
      GeneratePpt.buildSlide]

/-- Witness for C4: a chat response of free-form prose whose parse fails
yields the fallback plan and a one-slide log. -/
theorem call_llm_plan_fallback_witness :
    GeneratePpt.call_llm_plan (.ok (str "here is a plan in prose")) (fun _ => none) =
      GeneratePpt.fallback_plan ∧
    (GeneratePpt.generate_presentation (str "p") (str "Auto") none none [] none
        (fun _ => none) (.ok (str "here is a plan in prose")) (fun _ => none)
        (fun _ => none) (str "t0") (str "/tmp") (str "aaaaaaaa") (str "bbbbbbbb")).log.slides_generated = 1 := by
  have h := call_llm_plan_fallback (str "p") (str "Auto") none none [] none
    (fun _ => none) (.ok (str "here is a plan in prose")) (fun _ => none)
    (fun _ => none) (str "t0") (str "/tmp") (str "aaaaaaaa") (str "bbbbbbbb")
    (fun raw _ => Or.inl rfl)
  exact ⟨h.1, h.2.2⟩

/-- C5: ingestion_chroma.py imports `extract_design_json` from
design_extractor.py, but that module binds no such name (its extraction
entry point is `extract_design_elements`), so loading the ingestion module
fails with an ImportError. -/
theorem ingestion_import_fails :
    IngestionChroma.load_module =
      Except.error (str "ImportError: cannot import name extract_design_json") ∧
    ¬ str "extract_design_json" ∈ DesignExtractor.design_extractor_defs ∧
    str "extract_design_elements" ∈ DesignExtractor.design_extractor_defs :=
  ⟨rfl, by decide, by decide⟩

/-- The batch-building loop of the ingestion `process_blob`: its four
accumulators are the per-slide documents, metadata records, fresh
identifiers (one uuid draw per slide) and texts, in slide order. -/
theorem foldl_batchStep_eq (bn pb : Str) (idGen : Nat → Str)
    (l : List IngestionChroma.IngSlide) (docs : List Str)
    (metas : List IngestionChroma.Meta) (ids alltexts : List Str) (k : Nat) :
    l.foldl (IngestionChroma.batchStep bn pb idGen) (docs, metas, ids, alltexts, k) =
      (docs ++ l.map IngestionChroma.IngSlide.text,
       metas ++ l.map (IngestionChroma.slideMeta bn pb),
       ids ++ (List.range l.length).map (fun i => idGen (k + i)),
       alltexts ++ l.map IngestionChroma.IngSlide.text,
       k + l.length) := by
  induction l generalizing docs metas ids alltexts k with
  | nil => simp
  | cons s l ih =>
    rw [List.foldl_cons, IngestionChroma.batchStep, ih]
    simp [List.range_succ_eq_map, List.map_map, Function.comp_def, Nat.add_assoc,
      Nat.add_comm 1]

/-- C7: ingestion of one deck is all-or-nothing for the vector collection.
With the download succeeding: a deck with zero slides inserts nothing and
returns normally; a failed or empty embedding call inserts nothing and
returns normally; otherwise exactly one `collection.add` call is made, with
one document, one metadata record and one fresh identifier per slide. -/
theorem ingestion_all_or_nothing (blob : Str) (deck : List (List Str))
    (em : Except Str (List IngestionChroma.Emb)) (idGen : Nat → Str) :
    (IngestionChroma.extract_slides deck = [] →
      IngestionChroma.process_blob blob deck (.ok ()) em idGen = .ok []) ∧
    (IngestionChroma.azure_embed_func em = [] →
      IngestionChroma.process_blob blob deck (.ok ()) em idGen = .ok []) ∧
    (IngestionChroma.extract_slides deck ≠ [] →
     IngestionChroma.azure_embed_func em ≠ [] →
      IngestionChroma.process_blob blob deck (.ok ()) em idGen =
        .ok [{ documents := (IngestionChroma.extract_slides deck).map
                 IngestionChroma.IngSlide.text,
               embeddings := IngestionChroma.azure_embed_func em,
               metadatas := (IngestionChroma.extract_slides deck).map
                 (IngestionChroma.slideMeta blob (splitextStem (pyBasename blob))),
               ids := (List.range (IngestionChroma.extract_slides deck).length).map
                 idGen }]) := by
  refine ⟨?_, ?_, ?_⟩
  · intro h
    simp [IngestionChroma.process_blob, h]
  · intro h
    by_cases hs : IngestionChroma.extract_slides deck = []
    · simp [IngestionChroma.process_blob, hs]
    · simp [IngestionChroma.process_blob, hs, h]
  · intro hs he
    simp [IngestionChroma.process_blob, hs, he, foldl_batchStep_eq]

/-- Witness for C7: a two-slide deck with a two-vector embedding result
produces exactly one add call with two documents, two metadata records and
two fresh identifiers. -/
theorem ingestion_all_or_nothing_witness :
    IngestionChroma.process_blob (str "decks/a.pptx")
        [[str " hello ", str "  "], []] (.ok ()) (.ok [[1], [2]]) natToStr =
      .ok [{ documents := (IngestionChroma.extract_slides
               [[str " hello ", str "  "], []]).map IngestionChroma.IngSlide.text,
             embeddings := IngestionChroma.azure_embed_func (.ok [[1], [2]]),
             metadatas := (IngestionChroma.extract_slides
               [[str " hello ", str "  "], []]).map
                 (IngestionChroma.slideMeta (str "decks/a.pptx")
                   (splitextStem (pyBasename (str "decks/a.pptx")))),
             ids := (List.range (IngestionChroma.extract_slides
               [[str " hello ", str "  "], []]).length).map natToStr }] :=
  (ingestion_all_or_nothing (str "decks/a.pptx") [[str " hello ", str "  "], []]
      (.ok [[1], [2]]) natToStr).2.2 (by decide) (by decide)

/-- C8: design extraction is idempotent at deck granularity.  When the
cache already holds `<deck-basename>.json`, `process_blob` performs no
download and returns with the cache state unchanged, whatever the download
and extraction would have produced. -/
theorem design_extraction_skips_cached (blob : Str) (fs : DesignExtractor.CacheFS)
    (dl : Except Str Unit) (ex : Except Str Str)
    (h : DesignExtractor.ppt_already_processed fs blob = true) :
    DesignExtractor.process_blob blob fs dl ex = (fs, 0) := by
  simp [DesignExtractor.process_blob, h]

/-- Witness for C8: a cached deck is skipped even when a fresh extraction
result is available, and the cache file content is unchanged. -/
theorem design_extraction_skips_cached_witness :
    DesignExtractor.process_blob (str "a/deck.pptx")
        ⟨[(str "deck.pptx.json", str "cached")]⟩ (.ok ()) (.ok (str "fresh")) =
      (⟨[(str "deck.pptx.json", str "cached")]⟩, 0) :=
  design_extraction_skips_cached (str "a/deck.pptx")
    ⟨[(str "deck.pptx.json", str "cached")]⟩ (.ok ()) (.ok (str "fresh")) (by decide)

/-- C9: on a successful run, `generate_presentation` returns the LOCAL
temporary path `generated_presentation_<h1>.pptx`, uploads the document
under the independently drawn name `generated_<h2>.pptx`, records that
uploaded name in the log's `ppt_file`, and uploads the log under
`logs/generated_<h2>.pptx.json`. -/
theorem generate_returns_local_path (p s : Str) (rq : Option Nat) (th : Option Str)
    (tg : List Str) (so : Option (List GeneratePpt.RefHit))
    (dc : Str → Option Str) (co : Except Str Str)
    (sjl : Str → Option (List GeneratePpt.PlanEntry))
    (ig : Str → Option Str) (now tmpdir h1 h2 : Str)
    (hh1 : isHex8 h1 = true) (hh2 : isHex8 h2 = true) :
    (GeneratePpt.generate_presentation p s rq th tg so dc co sjl ig
        now tmpdir h1 h2).out_path =
      pyPathJoin tmpdir (str "generated_presentation_" ++ h1 ++ str ".pptx") ∧
    (GeneratePpt.generate_presentation p s rq th tg so dc co sjl ig
        now tmpdir h1 h2).log.ppt_file = str "generated_" ++ h2 ++ str ".pptx" ∧
    (GeneratePpt.generate_presentation p s rq th tg so dc co sjl ig
        now tmpdir h1 h2).uploads =
      [GeneratePpt.Upload.ppt
         (pyPathJoin tmpdir (str "generated_presentation_" ++ h1 ++ str ".pptx"))
         (str "generated_" ++ h2 ++ str ".pptx"),
       GeneratePpt.Upload.json
         (GeneratePpt.generate_presentation p s rq th tg so dc co sjl ig
            now tmpdir h1 h2).log
         (str "logs/" ++ (str "generated_" ++ h2 ++ str ".pptx") ++ str ".json")] := by
  refine ⟨?_, ?_, ?_⟩ <;> simp [GeneratePpt.generate_presentation]

/-- Witness for C9 at concrete hex suffixes `0a1b2c3d` (local) and
`deadbeef` (uploaded). -/
theorem generate_returns_local_path_witness :
    (GeneratePpt.generate_presentation (str "p") (str "Auto") none none [] none
        (fun _ => none) (.error (str "down")) (fun _ => none) (fun _ => none)
        (str "t0") (str "/tmp") (str "0a1b2c3d") (str "deadbeef")).out_path =
      str "/tmp/generated_presentation_0a1b2c3d.pptx" ∧
    (GeneratePpt.generate_presentation (str "p") (str "Auto") none none [] none
        (fun _ => none) (.error (str "down")) (fun _ => none) (fun _ => none)
        (str "t0") (str "/tmp") (str "0a1b2c3d") (str "deadbeef")).log.ppt_file =
      str "generated_deadbeef.pptx" := by
  have h := generate_returns_local_path (str "p") (str "Auto") none none [] none
    (fun _ => none) (.error (str "down")) (fun _ => none) (fun _ => none)
    (str "t0") (str "/tmp") (str "0a1b2c3d") (str "deadbeef") (by decide) (by decide)
  exact ⟨h.1.trans (by decide), h.2.1.trans (by decide)⟩

/-- C10: a front-end submission passes the selected phase label as the
`style` argument of `generate_presentation` (with `requested_num_slides`
and `theme` left absent and the tag filter derived from the phase), the
label is one of the six options and never the documented default `Auto`,
and the Generation Log's `style` field records that label. -/
theorem ui_submit_style_is_phase (phase prompt : Str)
    (so : Option (List GeneratePpt.RefHit)) (dc : Str → Option Str)
    (co : Except Str Str) (sjl : Str → Option (List GeneratePpt.PlanEntry))
    (ig : Str → Option Str) (now tmpdir h1 h2 : Str)
    (hmem : phase ∈ App.phase_options) :
    (App.submit phase prompt so dc co sjl ig now tmpdir h1 h2).log.style = phase ∧
    phase ≠ str "Auto" ∧
    App.submit phase prompt so dc co sjl ig now tmpdir h1 h2 =
      GeneratePpt.generate_presentation prompt phase none none (App.submit_tags phase)
        so dc co sjl ig now tmpdir h1 h2 := by
  refine ⟨?_, ?_, rfl⟩
  · simp [App.submit, GeneratePpt.generate_presentation]
  · simp only [App.phase_options, List.mem_cons, List.not_mem_nil, or_false] at hmem
    rcases hmem with h | h | h | h | h | h <;> subst h <;> decide

/-- Witness for C10 at phase `Plan`. -/
theorem ui_submit_style_is_phase_witness :
    (App.submit (str "Plan") (str "p") none (fun _ => none) (.error (str "down"))
        (fun _ => none) (fun _ => none) (str "t0") (str "/tmp") (str "aaaaaaaa")
        (str "bbbbbbbb")).log.style = str "Plan" ∧
    str "Plan" ≠ str "Auto" := by
  have h := ui_submit_style_is_phase (str "Plan") (str "p") none (fun _ => none)
    (.error (str "down")) (fun _ => none) (fun _ => none) (str "t0") (str "/tmp")
    (str "aaaaaaaa") (str "bbbbbbbb") (by decide)
  exact ⟨h.1, h.2.1⟩
